import Mathlib

set_option maxHeartbeats 1000000

/-!
Shallow embedding of `src/src/components/ImageToPDF.jsx` (the only source
file of the Img-2-pdf repository with program logic).

The page-layout arithmetic in `generatePDF` runs on JavaScript numbers, so
it is embedded over a type `JSNum` of IEEE-style values (a finite value is
modelled as an exact rational, plus Infinity, -Infinity and NaN) with the
ECMAScript rules for division by zero, products with infinities and
comparisons with NaN.  The list-management handlers (`handleFileSelect`,
`rotateImage`, `moveUp`, `moveDown`, `removeImage`, `clearAll`) are pure
list transformations of the `images` state array and are embedded directly.
-/

/-- A JavaScript number: a finite value (exact rational), an infinity,
or NaN.  Negative zero is not distinguished from zero; none of the
embedded code paths can tell them apart. -/
inductive JSNum where
  | num (q : ℚ)
  | inf
  | neginf
  | nan
  deriving DecidableEq

/-- ECMAScript division.  Division of a nonzero finite value by zero gives
a signed infinity, `0 / 0` gives NaN, a finite value divided by an
infinity gives `0`. -/
def JSNum.div : JSNum → JSNum → JSNum
  | JSNum.nan, _ => JSNum.nan
  | _, JSNum.nan => JSNum.nan
  | JSNum.inf, JSNum.inf => JSNum.nan
  | JSNum.inf, JSNum.neginf => JSNum.nan
  | JSNum.neginf, JSNum.inf => JSNum.nan
  | JSNum.neginf, JSNum.neginf => JSNum.nan
  | JSNum.inf, JSNum.num b => if b < 0 then JSNum.neginf else JSNum.inf
  | JSNum.neginf, JSNum.num b => if b < 0 then JSNum.inf else JSNum.neginf
  | JSNum.num _, JSNum.inf => JSNum.num 0
  | JSNum.num _, JSNum.neginf => JSNum.num 0
  | JSNum.num a, JSNum.num b =>
      if b = 0 then
        if 0 < a then JSNum.inf else if a < 0 then JSNum.neginf else JSNum.nan
      else JSNum.num (a / b)

/-- ECMAScript multiplication; `0 * Infinity` is NaN. -/
def JSNum.mul : JSNum → JSNum → JSNum
  | JSNum.nan, _ => JSNum.nan
  | _, JSNum.nan => JSNum.nan
  | JSNum.inf, JSNum.inf => JSNum.inf
  | JSNum.inf, JSNum.neginf => JSNum.neginf
  | JSNum.neginf, JSNum.inf => JSNum.neginf
  | JSNum.neginf, JSNum.neginf => JSNum.inf
  | JSNum.inf, JSNum.num b =>
      if b = 0 then JSNum.nan else if 0 < b then JSNum.inf else JSNum.neginf
  | JSNum.num a, JSNum.inf =>
      if a = 0 then JSNum.nan else if 0 < a then JSNum.inf else JSNum.neginf
  | JSNum.neginf, JSNum.num b =>
      if b = 0 then JSNum.nan else if 0 < b then JSNum.neginf else JSNum.inf
  | JSNum.num a, JSNum.neginf =>
      if a = 0 then JSNum.nan else if 0 < a then JSNum.neginf else JSNum.inf
  | JSNum.num a, JSNum.num b => JSNum.num (a * b)

/-- ECMAScript subtraction. -/
def JSNum.sub : JSNum → JSNum → JSNum
  | JSNum.nan, _ => JSNum.nan
  | _, JSNum.nan => JSNum.nan
  | JSNum.inf, JSNum.inf => JSNum.nan
  | JSNum.neginf, JSNum.neginf => JSNum.nan
  | JSNum.inf, _ => JSNum.inf
  | JSNum.neginf, _ => JSNum.neginf
  | JSNum.num _, JSNum.inf => JSNum.neginf
  | JSNum.num _, JSNum.neginf => JSNum.inf
  | JSNum.num a, JSNum.num b => JSNum.num (a - b)

/-- The ECMAScript strict greater-than comparison: any comparison with
NaN is false. -/
def JSNum.gt : JSNum → JSNum → Bool
  | JSNum.nan, _ => false
  | _, JSNum.nan => false
  | JSNum.inf, JSNum.inf => false
  | JSNum.inf, _ => true
  | JSNum.neginf, _ => false
  | JSNum.num _, JSNum.inf => false
  | JSNum.num _, JSNum.neginf => true
  | JSNum.num a, JSNum.num b => decide (b < a)

/-- The per-page placement rectangle, in page-space millimetres:
`{x, y, finalWidth, finalHeight}` as passed to `pdf.addImage`. -/
structure LayoutRect where
  x : JSNum
  y : JSNum
  width : JSNum
  height : JSNum
  deriving DecidableEq

/-- The fit-to-page layout computation inside `generatePDF`
(ImageToPDF.jsx lines 140-162): fixed A4 portrait configuration
`pageWidth = 210`, `pageHeight = 297`, `margin = 10`; content box
`maxWidth = 190`, `maxHeight = 277`; compare `imgRatio = width / height`
with `pageRatio`; scale to the binding dimension; centre the result.
The source performs no validity check on the pixel dimensions. -/
def layout (pixelWidth pixelHeight : JSNum) : LayoutRect :=
  let pageWidth : JSNum := JSNum.num 210
  let pageHeight : JSNum := JSNum.num 297
  let margin : JSNum := JSNum.num 10
  let maxWidth : JSNum := pageWidth.sub (margin.mul (JSNum.num 2))
  let maxHeight : JSNum := pageHeight.sub (margin.mul (JSNum.num 2))
  let imgRatio : JSNum := pixelWidth.div pixelHeight
  let pageRatio : JSNum := maxWidth.div maxHeight
  let finalWidth : JSNum :=
    if imgRatio.gt pageRatio then maxWidth else maxHeight.mul imgRatio
  let finalHeight : JSNum :=
    if imgRatio.gt pageRatio then maxWidth.div imgRatio else maxHeight
  let x : JSNum := (pageWidth.sub finalWidth).div (JSNum.num 2)
  let y : JSNum := (pageHeight.sub finalHeight).div (JSNum.num 2)
  { x := x, y := y, width := finalWidth, height := finalHeight }

/-- The aspect-ratio intermediate `imgRatio = imageData.width /
imageData.height` computed by `generatePDF` (line 147), exposed so that
its value on degenerate input can be stated. -/
def imgRatioJS (pixelWidth pixelHeight : JSNum) : JSNum :=
  pixelWidth.div pixelHeight

/-- The decodable content behind an entry's object URL: either an image
raster with natural pixel dimensions, or data that no image decoder
accepts (for which an `Image` element fires `error`, never `load`). -/
inductive SourceData where
  | image (w h : Nat)
  | corrupt
  deriving DecidableEq

/-- One element of the `images` state array: `{id, file, url, rotation,
name}` as built by `handleFileSelect`.  Identifiers and object URLs are
opaque handles, modelled as naturals. -/
structure ImageEntry where
  id : Nat
  file : SourceData
  url : Nat
  rotation : Nat
  name : String
  deriving DecidableEq

/-- A candidate file from the picker: its MIME `type` string, `name`,
content, together with the fresh identifier and object URL that
`crypto.randomUUID()` and `URL.createObjectURL` would mint for it (the
embedding externalises that nondeterminism). -/
structure FileInput where
  id : Nat
  type : String
  name : String
  url : Nat
  content : SourceData
  deriving DecidableEq

def imageMimePrefix : String := "image/"

/-- The `file.type.startsWith('image/')` test: ECMAScript
`String.prototype.startsWith`, i.e. the prefix's code units are an
initial segment of the receiver's.  (Defined over the character data so
that it evaluates by kernel reduction.) -/
def startsWithJS (s p : String) : Bool :=
  p.data.isPrefixOf s.data

/-- The `handleFileSelect` handler: keep only files whose MIME type
starts with `image/`; if none survive, return unchanged; otherwise
append one new entry per accepted file, each with `rotation = 0`. -/
def handleFileSelect (files : List FileInput) (prev : List ImageEntry) :
    List ImageEntry :=
  let imageFiles := files.filter (fun f => startsWithJS f.type imageMimePrefix)
  if imageFiles.length = 0 then prev
  else prev ++ imageFiles.map (fun f =>
    { id := f.id, file := f.content, url := f.url, rotation := 0, name := f.name })

/-- The `rotateImage` handler: map over the list, bumping the matching
entry's rotation by 90 degrees modulo 360. -/
def rotateImage (id : Nat) (prev : List ImageEntry) : List ImageEntry :=
  prev.map (fun img =>
    if img.id = id then { img with rotation := (img.rotation + 90) % 360 } else img)

/-- The `moveUp` handler: early return at `index === 0`, otherwise swap
the entries at `index - 1` and `index`.  The UI only ever calls it with
an index of an existing entry; out-of-range indices (never produced)
leave the list unchanged in the model. -/
def moveUp (index : Nat) (prev : List ImageEntry) : List ImageEntry :=
  if index = 0 then prev
  else
    match prev.get? (index - 1), prev.get? index with
    | some a, some b => (prev.set (index - 1) b).set index a
    | _, _ => prev

/-- The `moveDown` handler: early return at `index === images.length - 1`,
otherwise swap the entries at `index` and `index + 1`. -/
def moveDown (index : Nat) (prev : List ImageEntry) : List ImageEntry :=
  if index = prev.length - 1 then prev
  else
    match prev.get? index, prev.get? (index + 1) with
    | some a, some b => (prev.set index b).set (index + 1) a
    | _, _ => prev

/-- The `removeImage` handler: keep every entry whose id differs (the
revocation of the removed entry's object URL is a resource effect with no
bearing on the list state). -/
def removeImage (id : Nat) (prev : List ImageEntry) : List ImageEntry :=
  prev.filter (fun i => decide (i.id ≠ id))

/-- The `clearAll` handler: empty the list. -/
def clearAll (_prev : List ImageEntry) : List ImageEntry :=
  []

/-- One user-triggered store mutation. -/
inductive StoreOp where
  | add (files : List FileInput)
  | rotate (id : Nat)
  | up (index : Nat)
  | down (index : Nat)
  | remove (id : Nat)
  | clear

/-- Apply one store mutation to the `images` state. -/
def applyOp : StoreOp → List ImageEntry → List ImageEntry
  | StoreOp.add files, l => handleFileSelect files l
  | StoreOp.rotate id, l => rotateImage id l
  | StoreOp.up i, l => moveUp i l
  | StoreOp.down i, l => moveDown i l
  | StoreOp.remove id, l => removeImage id l
  | StoreOp.clear, l => clearAll l

/-- The state reached from the initial empty `images` array by a sequence
of store mutations. -/
def runOps (ops : List StoreOp) : List ImageEntry :=
  ops.foldl (fun l op => applyOp op l) []

/-- What `loadImageWithRotation` resolves with: the canvas JPEG data URL
(determined by the drawn source content and the rotation) and the canvas
pixel dimensions. -/
structure RenderedPage where
  dataUrl : SourceData × Nat
  width : Nat
  height : Nat
  deriving DecidableEq

/-- The `loadImageWithRotation` function.  Its promise resolves (inside
`img.onload`) with a canvas whose dimensions are swapped exactly when the
rotation is 90 or 270.  The promise executor installs no `onerror`
handler and never rejects, so for sources that cannot be decoded the
promise never settles: that outcome is `none`. -/
def loadImageWithRotation (imageData : ImageEntry) : Option RenderedPage :=
  match imageData.file with
  | SourceData.corrupt => none
  | SourceData.image w h =>
      if imageData.rotation = 90 ∨ imageData.rotation = 270 then
        some { dataUrl := (SourceData.image w h, imageData.rotation),
               width := h, height := w }
      else
        some { dataUrl := (SourceData.image w h, imageData.rotation),
               width := w, height := h }

/-- The observable outcome of one call to `generatePDF`. -/
inductive PDFOutcome where
  | noDocument
  | hung (atIndex : Nat)
  | saved (pages : List (LayoutRect × RenderedPage)) (filename : String)
  deriving DecidableEq

/-- The page-building loop of `generatePDF`: await each entry's render in
order; if a render promise never settles the whole async function stays
suspended at that index; otherwise lay the page out and append it. -/
def buildPages : List ImageEntry → Nat → Nat ⊕ List (LayoutRect × RenderedPage)
  | [], _ => Sum.inr []
  | img :: rest, i =>
      match loadImageWithRotation img with
      | none => Sum.inl i
      | some page =>
          match buildPages rest (i + 1) with
          | Sum.inl j => Sum.inl j
          | Sum.inr pages =>
              Sum.inr ((layout (JSNum.num page.width) (JSNum.num page.height),
                page) :: pages)

def defaultDocName : String := "document"

def pdfExtension : String := ".pdf"

/-- True for the characters the sanitiser keeps: the regex class
`[a-zA-Z0-9-_]` of `generatePDF` line 170. -/
def isKeptChar (c : Char) : Bool :=
  (decide (97 ≤ c.toNat) && decide (c.toNat ≤ 122)) ||
  (decide (65 ≤ c.toNat) && decide (c.toNat ≤ 90)) ||
  (decide (48 ≤ c.toNat) && decide (c.toNat ≤ 57)) ||
  (c == '-') || (c == '_')

/-- The ECMAScript WhiteSpace and LineTerminator code points removed by
`String.prototype.trim`. -/
def isJsSpace (c : Char) : Bool :=
  [' ', '\t', '\n', '\r', '\x0b', '\x0c', ' ', ' ', ' ',
   ' ', ' ', ' ', ' ', ' ', ' ', ' ',
   ' ', ' ', ' ', ' ', ' ', ' ', ' ',
   '　', '﻿'].contains c

/-- The `filename.trim()` call: drop leading and trailing whitespace. -/
def jsTrim (s : String) : String :=
  String.mk (((s.data.dropWhile isJsSpace).reverse.dropWhile isJsSpace).reverse)

/-- The filename sanitisation of `generatePDF` line 170:
`filename.trim().replace(/[^a-zA-Z0-9-_]/g, an underscore) || 'document'`.
The `||` falls back to the default exactly when the replaced string is
empty (the only falsy possibility). -/
def sanitizeFilename (filename : String) : String :=
  let t := String.mk ((jsTrim filename).data.map
    (fun c => if isKeptChar c then c else '_'))
  if t = String.mk [] then defaultDocName else t

/-- The `generatePDF` handler: early return on an empty list (no `jsPDF`
object is even constructed); then the sequential page loop; then
`pdf.save` under the sanitised filename with `.pdf` appended. -/
def generatePDF (images : List ImageEntry) (filename : String) : PDFOutcome :=
  if images.length = 0 then PDFOutcome.noDocument
  else
    match buildPages images 0 with
    | Sum.inl i => PDFOutcome.hung i
    | Sum.inr pages =>
        PDFOutcome.saved pages (sanitizeFilename filename ++ pdfExtension)

/-- Rotations the data model allows: multiples of 90 in [0, 360). -/
def validRot (r : Nat) : Prop :=
  r = 0 ∨ r = 90 ∨ r = 180 ∨ r = 270

def nameA : String := "a.png"

def nameB : String := "b.png"

def nameC : String := "c.png"

def nameD : String := "d.png"

def pngMime : String := "image/png"

def textMime : String := "text/plain"

def myDocInput : String := "My Doc!! 2024"

def myDocOutput : String := "My_Doc___2024"

/-- Sample entry: a landscape 800x600 image, unrotated. -/
def entA : ImageEntry :=
  { id := 1, file := SourceData.image 800 600, url := 21, rotation := 0, name := nameA }

/-- Sample entry: a portrait 600x800 image, unrotated. -/
def entB : ImageEntry :=
  { id := 2, file := SourceData.image 600 800, url := 22, rotation := 0, name := nameB }

/-- Sample entry: a square image rotated a quarter turn. -/
def entC : ImageEntry :=
  { id := 3, file := SourceData.image 10 10, url := 23, rotation := 90, name := nameC }

/-- Sample entry whose source no decoder accepts. -/
def entBad : ImageEntry :=
  { id := 4, file := SourceData.corrupt, url := 24, rotation := 0, name := nameD }

/-- The entry that adding `fileA` then rotating id 5 produces. -/
def entW : ImageEntry :=
  { id := 5, file := SourceData.image 800 600, url := 25, rotation := 90,
    name := nameA }

/-- Sample picker file with an image MIME type. -/
def fileA : FileInput :=
  { id := 5, type := pngMime, name := nameA, url := 25,
    content := SourceData.image 800 600 }

/-! ### Arithmetic helper lemmas for the JSNum embedding -/

theorem JSNum.num_div_num (a b : ℚ) (hb : b ≠ 0) :
    (JSNum.num a).div (JSNum.num b) = JSNum.num (a / b) := by
  simp [JSNum.div, hb]

theorem JSNum.num_mul_num (a b : ℚ) :
    (JSNum.num a).mul (JSNum.num b) = JSNum.num (a * b) := rfl

theorem JSNum.num_sub_num (a b : ℚ) :
    (JSNum.num a).sub (JSNum.num b) = JSNum.num (a - b) := rfl

theorem JSNum.num_gt_num (a b : ℚ) :
    (JSNum.num a).gt (JSNum.num b) = decide (b < a) := rfl

/-- On a finite width and a nonzero finite height, the wide branch of the
layout (image ratio strictly above the content-box ratio) pins the width
to 190 and scales the height. -/
theorem layout_num_wide (w h : ℚ) (hh0 : h ≠ 0) (hc : 190 / 277 < w / h) :
    layout (JSNum.num w) (JSNum.num h) =
      { x := JSNum.num ((210 - 190) / 2), y := JSNum.num ((297 - 190 / (w / h)) / 2),
        width := JSNum.num 190, height := JSNum.num (190 / (w / h)) } := by
  have hq : w / h ≠ 0 := by
    intro h0
    rw [h0] at hc
    norm_num at hc
  norm_num [layout, JSNum.num_mul_num, JSNum.num_sub_num, JSNum.num_div_num,
    JSNum.num_gt_num, hh0, hq, hc]

/-- On a finite width and a nonzero finite height, the tall branch of the
layout pins the height to 277 and scales the width. -/
theorem layout_num_tall (w h : ℚ) (hh0 : h ≠ 0) (hc : ¬(190 / 277 < w / h)) :
    layout (JSNum.num w) (JSNum.num h) =
      { x := JSNum.num ((210 - 277 * (w / h)) / 2), y := JSNum.num ((297 - 277) / 2),
        width := JSNum.num (277 * (w / h)), height := JSNum.num 277 } := by
  norm_num [layout, JSNum.num_mul_num, JSNum.num_sub_num, JSNum.num_div_num,
    JSNum.num_gt_num, hh0, hc]

/-- C1: for every raster with `pixelWidth ≥ 0` and `pixelHeight > 0`, under
the fixed page configuration (210 x 297, margin 10) the layout returns a
rect of finite values with `width ≤ 190`, `height ≤ 277`, the aspect ratio
`width / height` exactly equal to `pixelWidth / pixelHeight`, and the rect
centred on the page: `x + width / 2 = 210 / 2` and
`y + height / 2 = 297 / 2`. -/
theorem C1_layout_fit_centered (w h : ℚ) (hw : 0 ≤ w) (hh : 0 < h) :
    ∃ X Y W H : ℚ,
      layout (JSNum.num w) (JSNum.num h) =
        { x := JSNum.num X, y := JSNum.num Y,
          width := JSNum.num W, height := JSNum.num H } ∧
      W ≤ 190 ∧ H ≤ 277 ∧ W / H = w / h ∧
      X + W / 2 = 210 / 2 ∧ Y + H / 2 = 297 / 2 := by
  have hh0 : h ≠ 0 := ne_of_gt hh
  by_cases hc : 190 / 277 < w / h
  · have hq0 : (0 : ℚ) < w / h := lt_trans (by norm_num) hc
    refine ⟨(210 - 190) / 2, (297 - 190 / (w / h)) / 2, 190, 190 / (w / h),
      layout_num_wide w h hh0 hc, by norm_num, ?_, ?_, by norm_num, by ring⟩
    · have h190 : (190 : ℚ) < (w / h) * 277 :=
        (div_lt_iff (by norm_num : (0 : ℚ) < 277)).mp hc
      rw [div_le_iff hq0]
      linarith
    · field_simp
      ring
  · have hc' : w / h ≤ 190 / 277 := le_of_not_lt hc
    have hq0 : (0 : ℚ) ≤ w / h := div_nonneg hw (le_of_lt hh)
    refine ⟨(210 - 277 * (w / h)) / 2, (297 - 277) / 2, 277 * (w / h), 277,
      layout_num_tall w h hh0 hc, ?_, by norm_num, ?_, by ring, by norm_num⟩
    · have h190 : (w / h) * 277 ≤ 190 :=
        (le_div_iff (by norm_num : (0 : ℚ) < 277)).mp hc'
      linarith
    · field_simp
      ring

/-- Witness for C1 at the spec's own Scenario B input, an 800 x 600
raster: the layout is width 190, height 142.5, at x = 10, y = 77.25. -/
theorem C1_witness :
    ∃ X Y W H : ℚ,
      layout (JSNum.num 800) (JSNum.num 600) =
        { x := JSNum.num X, y := JSNum.num Y,
          width := JSNum.num W, height := JSNum.num H } ∧
      W ≤ 190 ∧ H ≤ 277 ∧ W / H = 800 / 600 ∧
      X + W / 2 = 210 / 2 ∧ Y + H / 2 = 297 / 2 :=
  C1_layout_fit_centered 800 600 (by norm_num) (by norm_num)

/-- C2 counterexample: at `pixelHeight = 0` the layout computation does
not fail at all.  With `pixelWidth = 800` the aspect ratio intermediate is
IEEE Infinity and the computation returns the rect
`{x = 10, y = 148.5, width = 190, height = 0}`; with `pixelWidth = 0` the
returned rect's width is NaN.  No error of any kind is raised — the
source has no dimension check and no `InvalidDimensionsError`. -/
theorem C2_counterexample :
    imgRatioJS (JSNum.num 800) (JSNum.num 0) = JSNum.inf ∧
    layout (JSNum.num 800) (JSNum.num 0) =
      { x := JSNum.num 10, y := JSNum.num (297 / 2),
        width := JSNum.num 190, height := JSNum.num 0 } ∧
    (layout (JSNum.num 0) (JSNum.num 0)).width = JSNum.nan := by
  refine ⟨?_, ?_, ?_⟩
  · norm_num [imgRatioJS, JSNum.div]
  · norm_num [layout, JSNum.div, JSNum.mul, JSNum.sub, JSNum.gt]
  · norm_num [layout, JSNum.div, JSNum.mul, JSNum.sub, JSNum.gt]

/-- C2 as amended: the layout computation performs no zero-height check
and raises no error.  For `pixelHeight = 0` and any positive finite
`pixelWidth` the aspect ratio is Infinity, the wide branch is taken, and
the result is the rect `{x = 10, y = 297/2, width = 190, height = 0}`;
for `pixelWidth = 0` as well, the result has NaN width and NaN x. -/
theorem C2_layout_zero_height :
    (∀ w : ℚ, 0 < w →
      imgRatioJS (JSNum.num w) (JSNum.num 0) = JSNum.inf ∧
      layout (JSNum.num w) (JSNum.num 0) =
        { x := JSNum.num 10, y := JSNum.num (297 / 2),
          width := JSNum.num 190, height := JSNum.num 0 }) ∧
    (layout (JSNum.num 0) (JSNum.num 0)).width = JSNum.nan ∧
    (layout (JSNum.num 0) (JSNum.num 0)).x = JSNum.nan := by
  refine ⟨fun w hw => ⟨?_, ?_⟩, ?_, ?_⟩
  · norm_num [imgRatioJS, JSNum.div, hw]
  · norm_num [layout, JSNum.div, JSNum.mul, JSNum.sub, JSNum.gt, hw]
  · norm_num [layout, JSNum.div, JSNum.mul, JSNum.sub, JSNum.gt]
  · norm_num [layout, JSNum.div, JSNum.mul, JSNum.sub, JSNum.gt]

/-- Witness for the amended C2 at `pixelWidth = 800`. -/
theorem C2_witness :
    imgRatioJS (JSNum.num 800) (JSNum.num 0) = JSNum.inf ∧
    layout (JSNum.num 800) (JSNum.num 0) =
      { x := JSNum.num 10, y := JSNum.num (297 / 2),
        width := JSNum.num 190, height := JSNum.num 0 } :=
  C2_layout_zero_height.1 800 (by norm_num)

/-- C3: evaluating `generatePDF` on a one-entry list whose source cannot
be decoded.  `loadImageWithRotation` installs no `onerror` handler and
never rejects, so the awaited promise never settles and the async
function stays suspended at index 0: the outcome is `hung 0` — no saved
document, but also no surfaced failure, contradicting both the claim's
`AssemblyFailure` and the intent of the `try`/`catch`/`alert` wrapper in
`generatePDF` itself. -/
theorem C3_decode_failure_hangs :
    generatePDF [entBad] nameA = PDFOutcome.hung 0 := rfl

/-- C8: with an empty entry list, `generatePDF` returns before
constructing any document, for every filename: the outcome is
`noDocument` — nothing is assembled and nothing is offered. -/
theorem C8_empty_list_no_document :
    ∀ filename : String, generatePDF [] filename = PDFOutcome.noDocument :=
  fun _ => rfl

/-- C4: for a source with natural dimensions `(w, h)`, the rendered
raster produced by `loadImageWithRotation` has dimensions `(h, w)` when
the entry's rotation is 90 or 270, and `(w, h)` when it is 0 or 180. -/
theorem C4_rotation_swaps_dims (e : ImageEntry) (w h : Nat)
    (hf : e.file = SourceData.image w h) :
    ((e.rotation = 90 ∨ e.rotation = 270) →
      loadImageWithRotation e =
        some { dataUrl := (e.file, e.rotation), width := h, height := w }) ∧
    ((e.rotation = 0 ∨ e.rotation = 180) →
      loadImageWithRotation e =
        some { dataUrl := (e.file, e.rotation), width := w, height := h }) := by
  constructor
  · intro hr
    simp [loadImageWithRotation, hf, hr]
  · intro hr
    have hnr : ¬(e.rotation = 90 ∨ e.rotation = 270) := by
      rcases hr with h0 | h0 <;> rw [h0] <;> norm_num
    simp [loadImageWithRotation, hf, hnr]

/-- Witness for C4: a 10 x 10 source at rotation 90 renders 10 x 10 with
the swap applied. -/
theorem C4_witness :
    loadImageWithRotation entC =
      some { dataUrl := (entC.file, entC.rotation), width := 10, height := 10 } :=
  (C4_rotation_swaps_dims entC 10 10 rfl).1 (Or.inl rfl)

lemma rotate_get (l : List ImageEntry) (id : Nat) (i : Nat) (e : ImageEntry)
    (h : l.get? i = some e) :
    (rotateImage id l).get? i =
      some (if e.id = id then { e with rotation := (e.rotation + 90) % 360 } else e) := by
  rw [List.get?_eq_getElem?] at h
  simp [rotateImage, List.getElem?_map, h]

lemma rotate_absent (l : List ImageEntry) (id : Nat)
    (h : ∀ e ∈ l, e.id ≠ id) : rotateImage id l = l := by
  induction l with
  | nil => rfl
  | cons a tl ih =>
    simp only [rotateImage, List.map_cons] at *
    rw [if_neg (h a (List.mem_cons_self a tl))]
    rw [ih (fun e he => h e (List.mem_cons_of_mem a he))]

lemma rotate_iter (e : ImageEntry) (k : Nat) (h : e.rotation = 0) :
    (rotateImage e.id)^[k] [e] = [{ e with rotation := (90 * k) % 360 }] := by
  induction k with
  | zero =>
    cases e with
    | mk id file url rotation name =>
      simp at h
      simp [Function.iterate_zero, h]
  | succ k ih =>
    rw [Function.iterate_succ_apply', ih]
    simp only [rotateImage, List.map_cons, List.map_nil, if_pos]
    congr 2
    omega

/-- C5: `rotateImage id` maps the entry with the matching id to the same
entry with rotation `(rotation + 90) % 360` and leaves every other entry
(and every entry when no id matches) unchanged; iterating it `k` times on
a fresh entry (rotation 0) gives rotation `(90 * k) % 360`, and iterating
it 4 times restores the entry exactly. -/
theorem C5_rotate_mod360 :
    (∀ (l : List ImageEntry) (id : Nat) (i : Nat) (e : ImageEntry),
        l.get? i = some e →
        (rotateImage id l).get? i =
          some (if e.id = id then { e with rotation := (e.rotation + 90) % 360 } else e)) ∧
    (∀ (l : List ImageEntry) (id : Nat), (∀ e ∈ l, e.id ≠ id) → rotateImage id l = l) ∧
    (∀ (e : ImageEntry) (k : Nat), e.rotation = 0 →
        (rotateImage e.id)^[k] [e] = [{ e with rotation := (90 * k) % 360 }]) ∧
    (∀ e : ImageEntry, e.rotation = 0 → (rotateImage e.id)^[4] [e] = [e]) := by
  refine ⟨rotate_get, rotate_absent, rotate_iter, fun e h => ?_⟩
  rw [rotate_iter e 4 h]
  cases e with
  | mk id file url rotation name =>
    simp at h
    simp [h]

/-- Witness for C5: rotating the sample fresh entry twice yields
rotation `(90 * 2) % 360 = 180`. -/
theorem C5_witness :
    (rotateImage entA.id)^[2] [entA] = [{ entA with rotation := (90 * 2) % 360 }] :=
  C5_rotate_mod360.2.2.1 entA 2 rfl

/-- C7: for an interior index, `moveUp i` swaps positions `i - 1` and `i`
and `moveDown i` swaps positions `i` and `i + 1`, preserving the length
and every other position verbatim; at the boundaries, `moveUp 0` and
`moveDown (length - 1)` leave the list (order and all entry fields)
unchanged. -/
theorem C7_move_swap_and_boundaries :
    (∀ (l : List ImageEntry) (i : Nat), 0 < i → i < l.length →
      (moveUp i l).length = l.length ∧
      (moveUp i l).get? (i - 1) = l.get? i ∧
      (moveUp i l).get? i = l.get? (i - 1) ∧
      ∀ j : Nat, j ≠ i - 1 → j ≠ i → (moveUp i l).get? j = l.get? j) ∧
    (∀ (l : List ImageEntry) (i : Nat), i + 1 < l.length →
      (moveDown i l).length = l.length ∧
      (moveDown i l).get? i = l.get? (i + 1) ∧
      (moveDown i l).get? (i + 1) = l.get? i ∧
      ∀ j : Nat, j ≠ i → j ≠ i + 1 → (moveDown i l).get? j = l.get? j) ∧
    (∀ l : List ImageEntry, moveUp 0 l = l) ∧
    (∀ l : List ImageEntry, l ≠ [] → moveDown (l.length - 1) l = l) := by
  refine ⟨?_, ?_, ?_, ?_⟩
  · intro l i h1 h2
    have hi0 : i ≠ 0 := Nat.pos_iff_ne_zero.mp h1
    have hlt : i - 1 < l.length := lt_of_le_of_lt (Nat.sub_le i 1) h2
    have ha : l.get? (i - 1) = some (l.get ⟨i - 1, hlt⟩) := List.get?_eq_get hlt
    have hb : l.get? i = some (l.get ⟨i, h2⟩) := List.get?_eq_get h2
    have hne : i ≠ i - 1 := by omega
    have hres : moveUp i l =
        (l.set (i - 1) (l.get ⟨i, h2⟩)).set i (l.get ⟨i - 1, hlt⟩) := by
      simp only [moveUp, if_neg hi0, ha, hb]
    refine ⟨?_, ?_, ?_, ?_⟩
    · simp [hres]
    · rw [hres, List.get?_set_ne _ _ hne, List.get?_set_eq_of_lt _ (by simpa using hlt), hb]
    · rw [hres, List.get?_set_eq_of_lt _ (by simpa using h2), ha]
    · intro j hj1 hj2
      rw [hres, List.get?_set_ne _ _ (fun he => hj2 he.symm),
        List.get?_set_ne _ _ (fun he => hj1 he.symm)]
  · intro l i h2
    have hnl : i ≠ l.length - 1 := by omega
    have hlt : i < l.length := by omega
    have ha : l.get? i = some (l.get ⟨i, hlt⟩) := List.get?_eq_get hlt
    have hb : l.get? (i + 1) = some (l.get ⟨i + 1, h2⟩) := List.get?_eq_get h2
    have hne : i + 1 ≠ i := by omega
    have hres : moveDown i l =
        (l.set i (l.get ⟨i + 1, h2⟩)).set (i + 1) (l.get ⟨i, hlt⟩) := by
      simp only [moveDown, if_neg hnl, ha, hb]
    refine ⟨?_, ?_, ?_, ?_⟩
    · simp [hres]
    · rw [hres, List.get?_set_ne _ _ hne, List.get?_set_eq_of_lt _ (by simpa using hlt), hb]
    · rw [hres, List.get?_set_eq_of_lt _ (by simpa using h2), ha]
    · intro j hj1 hj2
      rw [hres, List.get?_set_ne _ _ (fun he => hj2 he.symm),
        List.get?_set_ne _ _ (fun he => hj1 he.symm)]
  · intro l
    simp [moveUp]
  · intro l _
    simp [moveDown]

/-- Witness for C7 on a concrete two-entry list: `moveUp 1` brings the
second entry to the front, and `moveDown` at the last index is a no-op. -/
theorem C7_witness :
    (moveUp 1 [entA, entB]).get? 0 = [entA, entB].get? 1 ∧
    moveDown ([entA, entB].length - 1) [entA, entB] = [entA, entB] :=
  ⟨(C7_move_swap_and_boundaries.1 [entA, entB] 1 (by norm_num) (by simp)).2.1,
   C7_move_swap_and_boundaries.2.2.2 [entA, entB] (by simp)⟩

lemma removeImage_eq_self (l : List ImageEntry) (id : Nat)
    (h : ∀ e ∈ l, e.id ≠ id) : removeImage id l = l := by
  apply List.filter_eq_self.mpr
  intro a ha
  simpa using h a ha

lemma removeImage_length_ge (id : Nat) :
    ∀ l : List ImageEntry, (l.map ImageEntry.id).Nodup →
      l.length ≤ (removeImage id l).length + 1 := by
  intro l
  induction l with
  | nil => intro _; simp [removeImage]
  | cons a tl ih =>
    intro hnd
    rw [List.map_cons, List.nodup_cons] at hnd
    obtain ⟨ha, hnd2⟩ := hnd
    by_cases hid : a.id = id
    · have htl : removeImage id tl = tl := by
        apply removeImage_eq_self
        intro e he heq
        have hmem : e.id ∈ tl.map ImageEntry.id := List.mem_map_of_mem ImageEntry.id he
        rw [heq, ← hid] at hmem
        exact ha hmem
      simp only [removeImage, List.filter_cons]
      rw [if_neg (by simp [hid])]
      simp only [removeImage] at htl
      rw [htl]
      simp
    · simp only [removeImage, List.filter_cons]
      rw [if_pos (by simp [hid])]
      have := ih hnd2
      simp only [removeImage] at this
      simp only [List.length_cons]
      omega

/-- C10: `removeImage id` returns a sublist of the input (so the relative
order and every field of each surviving entry are unchanged), keeps every
entry whose id differs, deletes at most one entry when the store's
no-duplicate-id invariant holds, and is the identity when no entry has
the given id. -/
theorem C10_remove_frame :
    (∀ (l : List ImageEntry) (id : Nat), (removeImage id l).Sublist l) ∧
    (∀ (l : List ImageEntry) (id : Nat) (e : ImageEntry),
        e ∈ l → e.id ≠ id → e ∈ removeImage id l) ∧
    (∀ (l : List ImageEntry) (id : Nat), (l.map ImageEntry.id).Nodup →
        l.length ≤ (removeImage id l).length + 1) ∧
    (∀ (l : List ImageEntry) (id : Nat), (∀ e ∈ l, e.id ≠ id) →
        removeImage id l = l) := by
  refine ⟨?_, ?_, ?_, ?_⟩
  · intro l id
    exact List.filter_sublist l
  · intro l id e he hne
    apply List.mem_filter.mpr
    exact ⟨he, by simpa using hne⟩
  · intro l id hnd
    exact removeImage_length_ge id l hnd
  · intro l id h
    exact removeImage_eq_self l id h

/-- Witness for C10: removing id 1 from the two-entry sample list deletes
at most one entry. -/
theorem C10_witness :
    [entA, entB].length ≤ (removeImage 1 [entA, entB]).length + 1 :=
  C10_remove_frame.2.2.1 [entA, entB] 1 (by decide)

lemma validRot_step (r : Nat) (h : validRot r) : validRot ((r + 90) % 360) := by
  unfold validRot at h ⊢
  omega

lemma validRot_applyOp (op : StoreOp) (l : List ImageEntry)
    (hl : ∀ e ∈ l, validRot e.rotation) :
    ∀ e ∈ applyOp op l, validRot e.rotation := by
  cases op with
  | add files =>
    intro e he
    simp only [applyOp, handleFileSelect] at he
    split at he
    · exact hl e he
    · rcases List.mem_append.1 he with h | h
      · exact hl e h
      · obtain ⟨f, _, rfl⟩ := List.mem_map.1 h
        left
        rfl
  | rotate id =>
    intro e he
    simp only [applyOp, rotateImage] at he
    obtain ⟨img, him, rfl⟩ := List.mem_map.1 he
    by_cases h : img.id = id
    · simp only [if_pos h]
      exact validRot_step img.rotation (hl img him)
    · simp only [if_neg h]
      exact hl img him
  | up i =>
    intro e he
    simp only [applyOp, moveUp] at he
    split at he
    · exact hl e he
    · split at he
      · rename_i a b heq1 heq2
        rcases List.mem_or_eq_of_mem_set he with h | h
        · rcases List.mem_or_eq_of_mem_set h with h2 | h2
          · exact hl e h2
          · exact h2 ▸ hl _ (List.get?_mem heq2)
        · exact h ▸ hl _ (List.get?_mem heq1)
      · exact hl e he
  | down i =>
    intro e he
    simp only [applyOp, moveDown] at he
    split at he
    · exact hl e he
    · split at he
      · rename_i a b heq1 heq2
        rcases List.mem_or_eq_of_mem_set he with h | h
        · rcases List.mem_or_eq_of_mem_set h with h2 | h2
          · exact hl e h2
          · exact h2 ▸ hl _ (List.get?_mem heq2)
        · exact h ▸ hl _ (List.get?_mem heq1)
      · exact hl e he
  | remove id =>
    intro e he
    simp only [applyOp, removeImage] at he
    exact hl e (List.mem_filter.1 he).1
  | clear =>
    intro e he
    simp [applyOp, clearAll] at he

lemma validRot_foldl (ops : List StoreOp) :
    ∀ l : List ImageEntry, (∀ e ∈ l, validRot e.rotation) →
      ∀ e ∈ ops.foldl (fun l op => applyOp op l) l, validRot e.rotation := by
  induction ops with
  | nil =>
    intro l hl
    simpa using hl
  | cons op rest ih =>
    intro l hl
    simp only [List.foldl_cons]
    exact ih _ (validRot_applyOp op l hl)

/-- C6: in every state reachable from the empty store by any sequence of
add, rotate, moveUp, moveDown, remove and clear operations, every entry's
rotation is one of 0, 90, 180, 270. -/
theorem C6_rotation_invariant (ops : List StoreOp) (e : ImageEntry)
    (he : e ∈ runOps ops) :
    e.rotation = 0 ∨ e.rotation = 90 ∨ e.rotation = 180 ∨ e.rotation = 270 :=
  validRot_foldl ops [] (by simp) e he

/-- Witness for C6: the state reached by adding one image file and
rotating it once contains exactly one entry, with rotation 90. -/
theorem C6_witness :
    entW.rotation = 0 ∨ entW.rotation = 90 ∨ entW.rotation = 180 ∨
    entW.rotation = 270 :=
  C6_rotation_invariant [StoreOp.add [fileA], StoreOp.rotate 5] entW (by decide)

lemma sanitize_of_trim_empty (s : String) (h : jsTrim s = "") :
    sanitizeFilename s = defaultDocName := by
  simp [sanitizeFilename, h]

lemma sanitize_of_trim_ne (s : String) (h : jsTrim s ≠ "") :
    (sanitizeFilename s).data =
      (jsTrim s).data.map (fun c => if isKeptChar c then c else '_') := by
  have hd : (jsTrim s).data ≠ [] := by
    intro hnil
    apply h
    have h2 : jsTrim s = String.mk (jsTrim s).data := rfl
    rw [h2, hnil]
  simp only [sanitizeFilename]
  rw [if_neg]
  intro hcon
  have h3 : (jsTrim s).data.map (fun c => if isKeptChar c then c else '_') = [] :=
    congrArg String.data hcon
  rw [List.map_eq_nil] at h3
  exact hd h3

/-- C9: the sanitised filename is the input trimmed of leading and
trailing whitespace with every character outside `[A-Za-z0-9-_]` replaced
by an underscore, except that a result that is empty (equivalently, an
input that trims to empty) is replaced by the default name; in
particular the input `"My Doc!! 2024"` sanitises to `"My_Doc___2024"`. -/
theorem C9_sanitize_filename :
    (∀ s : String, jsTrim s = "" → sanitizeFilename s = defaultDocName) ∧
    (∀ s : String, jsTrim s ≠ "" →
      (sanitizeFilename s).data =
        (jsTrim s).data.map (fun c => if isKeptChar c then c else '_')) ∧
    sanitizeFilename myDocInput = myDocOutput := by
  refine ⟨sanitize_of_trim_empty, sanitize_of_trim_ne, by decide⟩

/-- Witness for C9 at the spec's Scenario E input. -/
theorem C9_witness :
    (sanitizeFilename myDocInput).data =
      (jsTrim myDocInput).data.map (fun c => if isKeptChar c then c else '_') :=
  C9_sanitize_filename.2.1 myDocInput (by decide)
